import Mathlib

/-!
Verification of the banana-flow-studio video pipeline subsystem.

Shallow embedding of:
* `src/bananaflow/services/ark_video.py` (submit / poll / download of remote
  video-generation tasks),
* `src/bananaflow/services/comfyui.py` (workflow patching, ffmpeg split/concat,
  job submission),
* `src/bananaflow/api/routes.py` (the in-memory video-upscale task registry and
  its background worker).

Machine floats of the source are modelled as `ℚ`, Python dicts as association
lists, network I/O as explicit outcome parameters, and raised exceptions as
`Except` values.
-/

namespace BananaFlow

/-- Python `a or b` on two optional strings: `None` and the empty string are
falsy, so they fall through to `b`.  Mirrors expressions such as
`status_data.get("status") or (status_data.get("data") or {}).get("status")`
in `ark_video.py`. -/
def pyOr (a b : Option String) : Option String :=
  match a with
  | none => b
  | some s => if s = "" then b else some s

/-- Python `a or d` where `a` is an optional string and `d` a (truthy) default
string, as in `(resolution or "1080p")` in `ark_video.py`. -/
def pyOrD (a : Option String) (d : String) : String :=
  match a with
  | none => d
  | some s => if s = "" then d else s

/-- Python `a or b` where `a` is an optional string and `b` the fallback
string, as in `data_url or video_url` in `generate_video_from_image`. -/
def pyOrStr (a : Option String) (b : String) : String :=
  match a with
  | none => b
  | some s => if s = "" then b else s

/- ------------------------------------------------------------------
   ark_video.poll_video_task (C2)
   ------------------------------------------------------------------ -/

/-- The `content` object of a status payload (`{"video_url": ...}`),
from `ark_video.extract_video_url`. -/
structure VideoContent where
  video_url : Option String
deriving Repr, DecidableEq

/-- A decoded JSON body of a `GET {ARK_VIDEO_API_URL}/{task_id}` status
response.  `status` and `data_status` model `body.get("status")` and
`(body.get("data") or {}).get("status")`; `content` / `data_content` model the
corresponding `content` objects; `dump` models `json.dumps(body)` (kept
opaque). -/
structure StatusPayload where
  status : Option String
  data_status : Option String
  content : Option VideoContent
  data_content : Option VideoContent
  dump : String
deriving Repr, DecidableEq

/-- Status extraction in `poll_video_task` / `generate_video_from_image`:
`status_data.get("status") or (status_data.get("data") or {}).get("status")`. -/
def extractStatus (p : StatusPayload) : Option String :=
  pyOr p.status p.data_status

/-- `status in ("succeeded", "failed")` in `poll_video_task`. -/
def isTerminal (s : Option String) : Bool :=
  s == some "succeeded" || s == some "failed"

/-- One polling round of `poll_video_task`, as seen from outside: `none` models
a non-200 status response (the loop `continue`s without touching
`last_status_data`), `some p` models a 200 response with decoded body `p`. -/
def roundTerminal (respond : Nat → Option StatusPayload) (i : Nat) : Bool :=
  match respond i with
  | none => false
  | some p => isTerminal (extractStatus p)

/-- The polling loop of `poll_video_task` (`for _ in range(max_rounds)`), with
the round counter `i` made explicit.  `fuel` is the number of rounds left,
`last` is `last_status_data`.  Running out of rounds models the
`raise TimeoutError(...)` carrying the last-observed payload. -/
def pollLoop (respond : Nat → Option StatusPayload) :
    Nat → Nat → Option StatusPayload → Except (Option StatusPayload) StatusPayload
  | 0, _, last => .error last
  | fuel + 1, i, last =>
    match respond i with
    | none => pollLoop respond fuel (i + 1) last
    | some p =>
      if isTerminal (extractStatus p) then .ok p
      else pollLoop respond fuel (i + 1) (some p)

/-- `ark_video.poll_video_task`: polls `max_rounds` times; returns the first
terminal payload, or raises `TimeoutError` (modelled as `.error`) carrying the
last-observed payload.  (The `time.sleep(interval_sec)` spacing has no
functional content and is not modelled.) -/
def pollVideoTask (maxRounds : Nat) (respond : Nat → Option StatusPayload) :
    Except (Option StatusPayload) StatusPayload :=
  pollLoop respond maxRounds 0 none

/-- The value of `last_status_data` after rounds `i, i+1, ..., i+fuel-1`,
starting from `last`: each 200 response overwrites it. -/
def trackLast (respond : Nat → Option StatusPayload) :
    Nat → Nat → Option StatusPayload → Option StatusPayload
  | 0, _, last => last
  | fuel + 1, i, last =>
    trackLast respond fuel (i + 1)
      (match respond i with
       | none => last
       | some p => some p)

/-- The payload observed last among rounds `0 .. maxRounds-1` (rounds with a
non-200 response observe nothing). -/
def lastObserved (respond : Nat → Option StatusPayload) (maxRounds : Nat) :
    Option StatusPayload :=
  trackLast respond maxRounds 0 none

/-- A concrete terminal payload used by the poll witness. -/
def payloadDone : StatusPayload :=
  { status := some "succeeded", data_status := none
    , content := some { video_url := some "https://cdn/video.mp4" }
    , data_content := none, dump := "{}" }

/-- A concrete in-progress payload used by the poll witness. -/
def payloadRunning : StatusPayload :=
  { status := some "running", data_status := none
    , content := none, data_content := none, dump := "{}" }

/-- Round responses for the poll witness: round 0 in-progress, round 1 (the
final allowed round of a 2-round budget) terminal. -/
def respondFinalRound : Nat → Option StatusPayload
  | 0 => some payloadRunning
  | 1 => some payloadDone
  | _ => none

/- ------------------------------------------------------------------
   ark_video.submit_video_task flags (C8)
   ------------------------------------------------------------------ -/

/-- The `flags` list built in `submit_video_task` (ark_video.py lines 40-51):
resolution default/strip, duration clamped with `max(3, min(12, int(duration)))`,
camerafixed, watermark, and the conditional ratio flag. -/
def buildSubmitFlags (resolution ratio : Option String) (duration : Int)
    (camera_fixed : Bool) : List String :=
  let res := (pyOrD resolution "1080p").trim
  let rat := (pyOrD ratio "adaptive").trim
  let flags0 := ["--resolution " ++ res]
  let clamped := max 3 (min 12 duration)
  let flags1 := flags0 ++ ["--duration " ++ toString clamped]
  let flags2 := flags1 ++ ["--camerafixed " ++ (if camera_fixed then "true" else "false")]
  let flags3 := flags2 ++ ["--watermark false"]
  if rat ≠ "" ∧ rat ≠ "adaptive" then flags3 ++ ["--ratio " ++ rat] else flags3

/- ------------------------------------------------------------------
   Job submission responses (C6)
   ------------------------------------------------------------------ -/

/-- A decoded response to the ark-video submit POST: `status_code`, the
optional `body.get("id")` and `(body.get("data") or {}).get("id")`, and the raw
text used in error messages. -/
structure ArkSubmitResponse where
  status_code : Nat
  id : Option String
  data_id : Option String
  text : String
deriving Repr, DecidableEq

/-- Tail of `ark_video.submit_video_task` (lines 95-104): non-200 raises
`VideoGenError`; `task_id = body.get("id") or (body.get("data") or {}).get("id")`,
a falsy (`None`/empty) id raises; otherwise the id is returned. -/
def submitVideoTaskResult (resp : ArkSubmitResponse) : Except String String :=
  if resp.status_code ≠ 200 then
    .error ("Task Submission Failed: " ++ toString resp.status_code ++ " " ++ resp.text)
  else
    match pyOr resp.id resp.data_id with
    | none => .error "No task ID returned"
    | some tid => if tid = "" then .error "No task ID returned" else .ok tid

/-- A decoded response to the ComfyUI `POST /prompt`: `status_code`, the
optional `body.get("prompt_id")`, and the raw text. -/
structure PromptResponse where
  status_code : Nat
  prompt_id : Option String
  text : String
deriving Repr, DecidableEq

/-- `comfyui._queue_prompt` (lines 60-71): non-200 raises `ComfyUiError`;
a falsy `prompt_id` raises; otherwise the prompt id is returned. -/
def queuePromptResult (resp : PromptResponse) : Except String String :=
  if resp.status_code ≠ 200 then
    .error ("ComfyUI prompt failed: " ++ toString resp.status_code ++ " " ++ resp.text)
  else
    match resp.prompt_id with
    | none => .error ("ComfyUI prompt_id missing: " ++ resp.text)
    | some pid => if pid = "" then .error ("ComfyUI prompt_id missing: " ++ resp.text) else .ok pid

/-- A concrete good ark submit response for the C6 witness. -/
def arkRespGood : ArkSubmitResponse :=
  { status_code := 200, id := none, data_id := some "task-77", text := "{}" }

/-- A concrete failing ComfyUI prompt response for the C6 witness. -/
def promptRespBad : PromptResponse :=
  { status_code := 500, prompt_id := none, text := "server error" }

/- ------------------------------------------------------------------
   Video download fallback (C10)
   ------------------------------------------------------------------ -/

/-- Outcome of `requests.get(video_url)` inside
`download_video_as_data_url`: either the request raised (any transport
exception) or it returned a status code and a body. -/
inductive DownloadOutcome where
  | exception : String → DownloadOutcome
  | response : Nat → List UInt8 → DownloadOutcome
deriving Repr, DecidableEq

/-- Modelled from the spec: `utils.images.bytes_to_data_url` is not under
`src/`; per the spec's "embedded payload" data-URL form it renders bytes as a
`data:<mime>;base64,...` string (the exact base64 text is irrelevant to the
claims and is modelled as a decimal byte dump). -/
def bytesToDataUrl (b : List UInt8) (mime : String) : String :=
  "data:" ++ mime ++ ";base64," ++ String.intercalate "," (b.map (fun x => toString x.toNat))

/-- `ark_video.download_video_as_data_url` (lines 183-190): returns the data
URL only for a 200 response with a non-empty body; every failure (non-200,
empty body, or a raised exception) returns `None` instead of raising. -/
def downloadVideoAsDataUrl (outcome : DownloadOutcome) : Option String :=
  match outcome with
  | .exception _ => none
  | .response code body =>
    if code = 200 && !body.isEmpty then some (bytesToDataUrl body "video/mp4") else none

/-- `ark_video.extract_video_url`:
`content = body.get("content") or (body.get("data") or {}).get("content") or {};
return content.get("video_url")`. -/
def extractVideoUrl (p : StatusPayload) : Option String :=
  match p.content with
  | some c => c.video_url
  | none =>
    match p.data_content with
    | some c => c.video_url
    | none => none

/-- Tail of `ark_video.generate_video_from_image` (lines 142-153), after the
poll returned `status_data`: a "failed" status raises `VideoGenError`; a
missing video URL returns the truncated payload dump; otherwise the result is
`download_video_as_data_url(...) or video_url`. -/
def generateVideoTail (p : StatusPayload) (outcome : DownloadOutcome) :
    Except String String :=
  if extractStatus p = some "failed" then
    .error ("Video generation failed: " ++ p.dump.take 500)
  else
    match extractVideoUrl p with
    | none => .ok (p.dump.take 800)
    | some url =>
      if url = "" then .ok (p.dump.take 800)
      else .ok (pyOrStr (downloadVideoAsDataUrl outcome) url)

/-- A concrete succeeded payload whose video URL is present, for the C10
witness. -/
def payloadWithUrl : StatusPayload :=
  { status := some "succeeded", data_status := none
    , content := some { video_url := some "https://cdn/out.mp4" }
    , data_content := none, dump := "{}" }

/- ------------------------------------------------------------------
   comfyui._concat_video_segments (C4)
   ------------------------------------------------------------------ -/

/-- The two ffmpeg concat invocations of `_concat_video_segments`. -/
inductive ConcatStage where
  | copyAttempt
  | reencodeAttempt
deriving Repr, DecidableEq

/-- `comfyui._concat_video_segments` (lines 493-543), with the outcome of each
ffmpeg invocation supplied as a Boolean (`_run_ffmpeg` raises `ComfyUiError`
exactly when the process is unavailable or exits non-zero).  Returns the list
of ffmpeg concat stages actually run together with the result: the merged
output path, or the single input path unchanged, or the raised error. -/
def concatVideoSegments (segment_paths : List String) (copyOk reencodeOk : Bool) :
    List ConcatStage × Except String String :=
  match segment_paths with
  | [] => ([], .error "No segments to merge")
  | [p] => ([], .ok p)
  | _ :: _ :: _ =>
    if copyOk then ([.copyAttempt], .ok "merged.mp4")
    else if reencodeOk then ([.copyAttempt, .reencodeAttempt], .ok "merged.mp4")
    else ([.copyAttempt, .reencodeAttempt], .error "ffmpeg failed at concat(reencode)")

/- ------------------------------------------------------------------
   Workflow templates and run_overlaytext_workflow (C3)
   ------------------------------------------------------------------ -/

/-- A JSON scalar stored in a workflow node's `inputs`. -/
inductive JsonValue where
  | str : String → JsonValue
  | int : Int → JsonValue
  | float : ℚ → JsonValue
  | bool : Bool → JsonValue
deriving Repr, DecidableEq

/-- One node of a workflow template: `{class_type, inputs}`.  `inputs = none`
models a node whose `"inputs"` entry is absent or not a dict. -/
structure WorkflowNode where
  class_type : String
  inputs : Option (List (String × JsonValue))
deriving Repr, DecidableEq

/-- A workflow template: the JSON object mapping node id → node, as an
association list. -/
def Workflow := List (String × WorkflowNode)

/-- Python dict assignment `inputs[key] = value`. -/
def setKey : List (String × JsonValue) → String → JsonValue → List (String × JsonValue)
  | [], k, v => [(k, v)]
  | (k', v') :: rest, k, v =>
    if k' = k then (k, v) :: rest else (k', v') :: setKey rest k v

/-- `comfyui._set_node_input` (lines 162-169): raises `ComfyUiError` if the
node is missing or its `inputs` is not a dict; otherwise assigns the key. -/
def setNodeInput (wf : Workflow) (node_id key : String) (v : JsonValue) :
    Except String Workflow :=
  match List.lookup node_id wf with
  | none => .error ("Workflow node " ++ node_id ++ " missing")
  | some node =>
    match node.inputs with
    | none => .error ("Workflow node " ++ node_id ++ " inputs missing")
    | some ins =>
      .ok (wf.map (fun entry =>
        if entry.1 = node_id then
          (entry.1, { entry.2 with inputs := some (setKey ins key v) })
        else entry))

/-- The `_set_if_not_none(key, value)` helper inside `run_overlaytext_workflow`,
which patches node `"6"` only when the optional value is present. -/
def setIfNotNone (wf : Workflow) (key : String) (v : Option JsonValue) :
    Except String Workflow :=
  match v with
  | none => .ok wf
  | some value => setNodeInput wf "6" key value

/-- The sequence of `_set_if_not_none` calls of `run_overlaytext_workflow`
(font_name, font_size, ..., highlight_color_hex_5), folded in source order over
the optional parameters. -/
def applyOptionalInputs (wf : Workflow) :
    List (String × Option JsonValue) → Except String Workflow
  | [] => .ok wf
  | (key, v) :: rest =>
    match setIfNotNone wf key v with
    | .error e => .error e
    | .ok wf' => applyOptionalInputs wf' rest

/-- The network calls `run_overlaytext_workflow` can make, in source order:
the image upload (`_upload_image`), the job submission (`_queue_prompt`), the
history poll (`_wait_for_history`) and the artifact download
(`_download_image`). -/
inductive NetCall where
  | upload
  | queuePrompt
  | history
  | download
deriving Repr, DecidableEq

/-- `comfyui.run_overlaytext_workflow` (lines 591-659) as a trace of network
calls plus a result.  The template is the loaded (deep-copied) workflow;
`uploadedName` is the filename returned by the upload, whose network call
happens *before* any node patching; `text` is the text patched into node `"6"`;
`opts` is the optional-parameter list fed to `_set_if_not_none`.  The remote
queue/poll/download steps are modelled as succeeding — the claim under test
concerns only what happens up to the submission. -/
def runOverlaytextWorkflow (template : Workflow) (uploadedName : String)
    (text : JsonValue) (opts : List (String × Option JsonValue)) :
    List NetCall × Except String Unit :=
  let events : List NetCall := [.upload]
  match setNodeInput template "2" "image" (.str uploadedName) with
  | .error e => (events, .error e)
  | .ok wf1 =>
    match setNodeInput wf1 "6" "text" text with
    | .error e => (events, .error e)
    | .ok wf2 =>
      match applyOptionalInputs wf2 opts with
      | .error e => (events, .error e)
      | .ok _ => (events ++ [.queuePrompt, .history, .download], .ok ())

/-- The template defect `_set_node_input` guards against for a node id: the
node is absent from the template, or the node's `inputs` entry is not a dict.
The parameter patch of `run_overlaytext_workflow` references exactly the node
ids `"2"` and `"6"`. -/
def nodeUnpatchable (wf : Workflow) (node_id : String) : Prop :=
  match List.lookup node_id wf with
  | none => True
  | some node => node.inputs = none

/-- A template containing only node `"6"` (with an inputs dict): the patched
node `"2"` is absent. -/
def templateOnly6 : Workflow :=
  [("6", { class_type := "TextOverlay", inputs := some [] })]

/-- A template containing only node `"2"` (with an inputs dict): the patched
node `"6"` is absent. -/
def templateOnly2 : Workflow :=
  [("2", { class_type := "LoadImage", inputs := some [] })]

/- ------------------------------------------------------------------
   The video-upscale task registry (routes.py) — C1, C5, C7, C9
   ------------------------------------------------------------------ -/

/-- One record of the `video_upscale_tasks` dict (routes.py).  Wall-clock
fields (`created_at`, `updated_at`) and `segment_seconds` carry no claimed
property and are not modelled; Python floats are modelled as `ℚ`. -/
structure UpscaleTask where
  user_id : Option String := none
  status : String := "queued"
  completed_chunks : Nat := 0
  total_chunks : Nat := 0
  progress : ℚ := 0
  video : Option String := none
  error : Option String := none
deriving Repr, DecidableEq

/-- The empty dict `{}` used as the base record by
`_set_video_upscale_task` when the id is new; absent keys read back through
the same falsy-defaulting coercions the status endpoint applies, which is what
the field defaults encode. -/
def emptyTask : UpscaleTask := {}

/-- The shared `video_upscale_tasks` map: task id → record. -/
abbrev TaskRegistry := List (String × UpscaleTask)

/-- Python `dict.get(key)` on the task map. -/
def dictGet : TaskRegistry → String → Option UpscaleTask
  | [], _ => none
  | (k, v) :: rest, tid => if k = tid then some v else dictGet rest tid

/-- Python `dict[key] = value` on the task map. -/
def dictSet : TaskRegistry → String → UpscaleTask → TaskRegistry
  | [], tid, v => [(tid, v)]
  | (k, w) :: rest, tid, v =>
    if k = tid then (tid, v) :: rest else (k, w) :: dictSet rest tid v

/-- `_get_video_upscale_task` (routes.py lines 72-75): under the lock, returns
`dict(current)` — a snapshot copy — when the id is present, else `None`; it
never raises.  (The shallow copy is what licenses modelling records as
immutable values.) -/
def getVideoUpscaleTask (r : TaskRegistry) (task_id : String) : Option UpscaleTask :=
  dictGet r task_id

/-- `_set_video_upscale_task` (routes.py lines 65-69): under the lock, merges
the keyword patch into the current record (or into `{}` if the id is new) and
stores it back.  The patch is modelled as a record-update function. -/
def setVideoUpscaleTask (r : TaskRegistry) (task_id : String)
    (patch : UpscaleTask → UpscaleTask) : TaskRegistry :=
  dictSet r task_id (patch ((dictGet r task_id).getD emptyTask))

/-- The response body of `GET /api/video_upscale/status/{task_id}`. -/
structure StatusRespBody where
  task_id : String
  status : String
  completed_chunks : Nat
  total_chunks : Nat
  progress : ℚ
  video : Option String
  error : Option String
deriving Repr, DecidableEq

/-- An `HTTPException(status_code, detail)`. -/
structure HttpFailure where
  status_code : Nat
  detail : String
deriving Repr, DecidableEq

/-- Python `str(...)` on an optional string: `str(None) = "None"`, as in the
owner comparison `str(task.get("user_id")) != str(current_user["id"])`. -/
def pyStr (o : Option String) : String :=
  match o with
  | some s => s
  | none => "None"

/-- The response construction of `video_upscale_status` (routes.py lines
529-537), with its falsy-defaulting coercions (`status or "queued"`,
`max(0, int(... or 0))` — the latter an identity on `Nat` counters). -/
def statusRespOf (task_id : String) (task : UpscaleTask) : StatusRespBody :=
  { task_id := task_id
  , status := if task.status = "" then "queued" else task.status
  , completed_chunks := task.completed_chunks
  , total_chunks := task.total_chunks
  , progress := task.progress
  , video := task.video
  , error := task.error }

/-- `video_upscale_status` (routes.py lines 521-537): 404 "Task not found" for
a missing id, the *same* 404 "Task not found" when the stored `user_id` does
not match the requesting user, and the record otherwise. -/
def videoUpscaleStatus (r : TaskRegistry) (task_id current_user_id : String) :
    Except HttpFailure StatusRespBody :=
  match getVideoUpscaleTask r task_id with
  | none => .error { status_code := 404, detail := "Task not found" }
  | some task =>
    if pyStr task.user_id ≠ current_user_id then
      .error { status_code := 404, detail := "Task not found" }
    else
      .ok (statusRespOf task_id task)

/-- A concrete mid-run record owned by `"alice"`, for the registry and status
witnesses. -/
def taskAlice : UpscaleTask :=
  { user_id := some "alice", status := "running", completed_chunks := 1
  , total_chunks := 4, progress := 1/4, video := none, error := none }

/-- A concrete one-task registry for the registry and status witnesses. -/
def registryEx : TaskRegistry := [("t1", taskAlice)]

/- ------------------------------------------------------------------
   The background worker's registry updates (routes.py) — C1, C5
   ------------------------------------------------------------------ -/

/-- The initial write of `video_upscale_start` (routes.py lines 500-510):
`user_id`, `status="queued"`, zero counters, `progress=0.0`. -/
def startUpdate (uid : String) (t : UpscaleTask) : UpscaleTask :=
  { t with user_id := some uid, status := "queued", completed_chunks := 0
         , total_chunks := 0, progress := 0 }

/-- The worker's first write (routes.py line 436): `status="running"`. -/
def runningUpdate (t : UpscaleTask) : UpscaleTask :=
  { t with status := "running" }

/-- `_on_progress(done, total)` (routes.py lines 424-433):
`progress = done/total if total > 0 else 0.0`, then a merge of
`status="running"`, the counters (`max(0, ...)` is an identity on `Nat`), and
`progress` clamped to `[0, 1]`. -/
def applyProgress (done total : Nat) (t : UpscaleTask) : UpscaleTask :=
  let progress : ℚ := if 0 < total then (done : ℚ) / (total : ℚ) else 0
  { t with status := "running", completed_chunks := done, total_chunks := total
         , progress := max 0 (min 1 progress) }

/-- The clamped progress value written by `_on_progress(done, total)`. -/
def clampProgress (total done : Nat) : ℚ :=
  max 0 (min 1 (if 0 < total then (done : ℚ) / (total : ℚ) else 0))

/-- The worker's success write (routes.py lines 447-457): re-reads
`total_chunks` from the current record and merges `status="success"`,
`completed_chunks=total`, `progress=1.0` and the result payload. -/
def successUpdate (out : String) (t : UpscaleTask) : UpscaleTask :=
  { t with status := "success", completed_chunks := t.total_chunks
         , total_chunks := t.total_chunks, progress := 1, video := some out }

/-- The worker's `except` write (routes.py lines 471-477): merges
`status="error"` and `error=str(e)` — nothing else; in particular the message
is stored verbatim and `progress` keeps its last value. -/
def errorUpdate (msg : String) (t : UpscaleTask) : UpscaleTask :=
  { t with status := "error", error := some msg }

/-- The successive registry states produced by a run of `_on_progress`
callbacks, one per element of `done_values`, threading the record through each
merge (the worker calls `progress_cb(0, total)` first and `progress_cb(idx+1,
total)` after each chunk, in `run_video_upscale_workflow`). -/
def progressPhase (total : Nat) (t : UpscaleTask) : List Nat → List UpscaleTask
  | [] => []
  | done :: rest =>
    applyProgress done total t :: progressPhase total (applyProgress done total t) rest

/-- The registry states of a video-upscale run from creation up to and
including the callback `progress_cb(j, total)`: the queued record, the running
record, then the callbacks `0, 1, ..., j`. -/
def runStates (uid : String) (total j : Nat) : List UpscaleTask :=
  startUpdate uid emptyTask
    :: runningUpdate (startUpdate uid emptyTask)
    :: progressPhase total (runningUpdate (startUpdate uid emptyTask)) (List.range (j + 1))

/-- The full registry-state trace of a successful `n`-chunk run: all callback
states (`progress_cb(0..n, n)`) followed by the success write, whose
`total_chunks` is re-read from the last record (`or {}` modelled by
`getLastD emptyTask`). -/
def successTrace (uid out : String) (n : Nat) : List UpscaleTask :=
  runStates uid n n ++ [successUpdate out ((runStates uid n n).getLastD emptyTask)]

/-- The full registry-state trace of an `n`-chunk run that raises after the
callback `progress_cb(j, n)` (`j = n` models a failure after all chunks, e.g.
during reassembly): the worker's top-level handler appends the single error
write and stops. -/
def errorTrace (uid msg : String) (n j : Nat) : List UpscaleTask :=
  runStates uid n j ++ [errorUpdate msg ((runStates uid n j).getLastD emptyTask)]

/-- The registry record right after the final chunk's `_on_progress(n, n)`
callback of a 1-chunk run — used to refute `progress == 1.0 iff success`. -/
def overshootState : UpscaleTask :=
  applyProgress 1 1 (applyProgress 0 1 (runningUpdate (startUpdate "u" emptyTask)))

/-- A 501-character error message, one character longer than the 500-character
truncation bound this codebase uses where it does truncate (ffmpeg and poll
diagnostics). -/
def longErrMsg : String := String.mk (List.replicate 501 'x')

lemma pollLoop_timeout (respond : Nat → Option StatusPayload) :
    ∀ (fuel i : Nat) (last : Option StatusPayload),
      (∀ k, i ≤ k → k < i + fuel → roundTerminal respond k = false) →
      pollLoop respond fuel i last = .error (trackLast respond fuel i last) := by
  intro fuel
  induction fuel with
  | zero => intro i last _; rfl
  | succ n ih =>
    intro i last h
    have hi : roundTerminal respond i = false := h i le_rfl (by omega)
    unfold pollLoop trackLast
    unfold roundTerminal at hi
    cases hr : respond i with
    | none =>
      simp only [hr]
      exact ih (i + 1) last (fun k hk1 hk2 => h k (by omega) (by omega))
    | some p =>
      simp only [hr] at hi ⊢
      simp only [hi, if_false]
      exact ih (i + 1) (some p) (fun k hk1 hk2 => h k (by omega) (by omega))

lemma pollLoop_terminal (respond : Nat → Option StatusPayload) :
    ∀ (d fuel i : Nat) (last : Option StatusPayload) (p : StatusPayload),
      d < fuel →
      (∀ k, i ≤ k → k < i + d → roundTerminal respond k = false) →
      respond (i + d) = some p →
      isTerminal (extractStatus p) = true →
      pollLoop respond fuel i last = .ok p := by
  intro d
  induction d with
  | zero =>
    intro fuel i last p hlt _ hresp hterm
    cases fuel with
    | zero => omega
    | succ n =>
      unfold pollLoop
      simp only [Nat.add_zero] at hresp
      simp only [hresp, hterm, if_true]
  | succ m ih =>
    intro fuel i last p hlt h hresp hterm
    cases fuel with
    | zero => omega
    | succ n =>
      have hi : roundTerminal respond i = false := h i le_rfl (by omega)
      unfold pollLoop
      unfold roundTerminal at hi
      cases hr : respond i with
      | none =>
        simp only [hr]
        exact ih n (i + 1) last p (by omega)
          (fun k hk1 hk2 => h k (by omega) (by omega))
          (by rw [show i + 1 + m = i + (m + 1) by omega]; exact hresp) hterm
      | some q =>
        simp only [hr] at hi ⊢
        simp only [hi, if_false]
        exact ih n (i + 1) (some q) p (by omega)
          (fun k hk1 hk2 => h k (by omega) (by omega))
          (by rw [show i + 1 + m = i + (m + 1) by omega]; exact hresp) hterm

/-- C2.  A poll with a budget of `maxRounds` status queries: if no round
observes a terminal status ("succeeded"/"failed"), the call raises
`TimeoutError` carrying the last-observed payload; if round `j < maxRounds`
(in particular the final round `j = maxRounds - 1`) is the first to observe a
terminal status, the call returns that round's full payload. -/
theorem poll_video_task_budget (maxRounds : Nat) (respond : Nat → Option StatusPayload) :
    ((∀ i, i < maxRounds → roundTerminal respond i = false) →
        pollVideoTask maxRounds respond = .error (lastObserved respond maxRounds))
  ∧ (∀ j p, j < maxRounds → respond j = some p → isTerminal (extractStatus p) = true →
        (∀ i, i < j → roundTerminal respond i = false) →
        pollVideoTask maxRounds respond = .ok p) := by
  constructor
  · intro h
    exact pollLoop_timeout respond maxRounds 0 none
      (fun k _ hk => h k (by omega))
  · intro j p hj hresp hterm hbefore
    exact pollLoop_terminal respond j maxRounds 0 none p hj
      (fun k _ hk => hbefore k (by omega))
      (by simpa using hresp) hterm

/-- Witness for C2: with a 2-round budget and the terminal status arriving
exactly on the final round, the poll returns the terminal payload; with the
same budget and only in-progress responses, it times out carrying the last
payload. -/
theorem poll_video_task_budget_witness :
    pollVideoTask 2 respondFinalRound = .ok payloadDone
  ∧ pollVideoTask 2 (fun _ => some payloadRunning)
      = .error (some payloadRunning) := by
  constructor
  · exact (poll_video_task_budget 2 respondFinalRound).2 1 payloadDone
      (by decide) (by decide) (by decide)
      (fun i hi => by interval_cases i; decide)
  · exact (poll_video_task_budget 2 (fun _ => some payloadRunning)).1
      (fun i _ => rfl)

/-- C8.  For every integer `duration`, the `--duration` flag submitted by
`submit_video_task` (the second element of the flags list) carries
`max(3, min(12, duration))`, which always lies in `[3, 12]`. -/
theorem submit_duration_clamped (resolution ratio : Option String) (duration : Int)
    (camera_fixed : Bool) :
    (buildSubmitFlags resolution ratio duration camera_fixed).get? 1
        = some ("--duration " ++ toString (max 3 (min 12 duration)))
  ∧ 3 ≤ max 3 (min 12 duration) ∧ max 3 (min 12 duration) ≤ 12 := by
  refine ⟨?_, le_max_left 3 _, max_le (by norm_num) (min_le_left 12 duration)⟩
  simp only [buildSubmitFlags]
  split <;> rfl

/-- C6.  For both submit operations: a non-200 response or a missing (falsy)
identifier in the body yields a submission error, and a 200 response with a
non-empty identifier returns exactly that identifier. -/
theorem submit_rejects_bad_response (a : ArkSubmitResponse) (c : PromptResponse) :
    (a.status_code ≠ 200 → ∃ e, submitVideoTaskResult a = .error e)
  ∧ ((pyOr a.id a.data_id = none ∨ pyOr a.id a.data_id = some "") →
        ∃ e, submitVideoTaskResult a = .error e)
  ∧ (∀ tid, a.status_code = 200 → pyOr a.id a.data_id = some tid → tid ≠ "" →
        submitVideoTaskResult a = .ok tid)
  ∧ (c.status_code ≠ 200 → ∃ e, queuePromptResult c = .error e)
  ∧ ((c.prompt_id = none ∨ c.prompt_id = some "") →
        ∃ e, queuePromptResult c = .error e)
  ∧ (∀ pid, c.status_code = 200 → c.prompt_id = some pid → pid ≠ "" →
        queuePromptResult c = .ok pid) := by
  refine ⟨?_, ?_, ?_, ?_, ?_, ?_⟩
  · intro h
    exact ⟨_, by unfold submitVideoTaskResult; rw [if_pos h]⟩
  · intro h
    unfold submitVideoTaskResult
    by_cases h200 : a.status_code ≠ 200
    · exact ⟨_, by rw [if_pos h200]⟩
    · rw [if_neg h200]
      rcases h with h | h <;> rw [h]
      · exact ⟨_, rfl⟩
      · exact ⟨_, if_pos rfl⟩
  · intro tid h200 hid hne
    unfold submitVideoTaskResult
    rw [if_neg (by simpa using h200), hid]
    simp [hne]
  · intro h
    exact ⟨_, by unfold queuePromptResult; rw [if_pos h]⟩
  · intro h
    unfold queuePromptResult
    by_cases h200 : c.status_code ≠ 200
    · exact ⟨_, by rw [if_pos h200]⟩
    · rw [if_neg h200]
      rcases h with h | h <;> rw [h]
      · exact ⟨_, rfl⟩
      · exact ⟨_, if_pos rfl⟩
  · intro pid h200 hid hne
    unfold queuePromptResult
    rw [if_neg (by simpa using h200), hid]
    simp [hne]

/-- Witness for C6: a 200 ark response with the id nested under `data` returns
that id, and a non-200 ComfyUI response is a submission error. -/
theorem submit_rejects_bad_response_witness :
    submitVideoTaskResult arkRespGood = .ok "task-77"
  ∧ ∃ e, queuePromptResult promptRespBad = .error e := by
  constructor
  · exact (submit_rejects_bad_response arkRespGood promptRespBad).2.2.1 "task-77"
      rfl (by decide) (by decide)
  · exact (submit_rejects_bad_response arkRespGood promptRespBad).2.2.2.1 (by decide)

/-- C10.  Every download failure (transport exception, non-200 response, or
empty body) makes `download_video_as_data_url` return `None` rather than raise,
and `generate_video_from_image` then returns the remote video URL string in
place of embedded bytes — a download failure after successful generation never
surfaces as an error. -/
theorem download_failure_falls_back_to_url (p : StatusPayload)
    (outcome : DownloadOutcome) (url : String) :
    (∀ msg, downloadVideoAsDataUrl (.exception msg) = none)
  ∧ (∀ code body, code ≠ 200 ∨ body = [] →
        downloadVideoAsDataUrl (.response code body) = none)
  ∧ (extractStatus p = some "succeeded" → extractVideoUrl p = some url → url ≠ "" →
        downloadVideoAsDataUrl outcome = none →
        generateVideoTail p outcome = .ok url) := by
  refine ⟨fun _ => rfl, ?_, ?_⟩
  · intro code body h
    unfold downloadVideoAsDataUrl
    rcases h with h | h
    · simp [h]
    · simp [h]
  · intro hst hurl hne hdl
    simp [generateVideoTail, hst, hurl, hdl, hne, pyOrStr]

/-- Witness for C10: a 404 empty-body download yields `None`, and the
generation call returns the remote URL itself. -/
theorem download_failure_falls_back_to_url_witness :
    downloadVideoAsDataUrl (.response 404 []) = none
  ∧ generateVideoTail payloadWithUrl (.response 404 []) = .ok "https://cdn/out.mp4" := by
  constructor
  · exact (download_failure_falls_back_to_url payloadWithUrl (.response 404 [])
      "https://cdn/out.mp4").2.1 404 [] (by decide)
  · exact (download_failure_falls_back_to_url payloadWithUrl (.response 404 [])
      "https://cdn/out.mp4").2.2 (by decide) (by decide) (by decide) (by decide)

/-- C4.  For two or more ordered chunks: the stream-copy concat is attempted
first; the re-encode concat runs iff the copy step fails; a reassembly error is
raised exactly when both fail; and a single-element input is returned unchanged
with no concat invocation at all. -/
theorem concat_fallback_behavior (p q : String) (rest : List String)
    (copyOk reencodeOk : Bool) :
    (concatVideoSegments (p :: q :: rest) copyOk reencodeOk).1.head?
        = some ConcatStage.copyAttempt
  ∧ (ConcatStage.reencodeAttempt ∈ (concatVideoSegments (p :: q :: rest) copyOk reencodeOk).1
        ↔ copyOk = false)
  ∧ ((∃ e, (concatVideoSegments (p :: q :: rest) copyOk reencodeOk).2 = .error e)
        ↔ (copyOk = false ∧ reencodeOk = false))
  ∧ concatVideoSegments [p] copyOk reencodeOk = ([], .ok p) := by
  cases copyOk <;> cases reencodeOk <;>
    refine ⟨rfl, ?_, ?_, rfl⟩ <;>
    simp [concatVideoSegments]

lemma setNodeInput_error_of_unpatchable (wf : Workflow) (nid key : String) (v : JsonValue)
    (h : nodeUnpatchable wf nid) :
    setNodeInput wf nid key v = .error ("Workflow node " ++ nid ++ " missing")
  ∨ setNodeInput wf nid key v = .error ("Workflow node " ++ nid ++ " inputs missing") := by
  unfold nodeUnpatchable at h
  cases hl : List.lookup nid wf with
  | none =>
    left
    simp only [setNodeInput, hl]
  | some node =>
    right
    simp only [hl] at h
    simp only [setNodeInput, hl, h]

lemma setNodeInput_error_cases (wf : Workflow) (nid key : String) (v : JsonValue) (e : String)
    (h : setNodeInput wf nid key v = .error e) :
    e = "Workflow node " ++ nid ++ " missing"
  ∨ e = "Workflow node " ++ nid ++ " inputs missing" := by
  cases hl : List.lookup nid wf with
  | none =>
    simp only [setNodeInput, hl] at h
    cases h
    exact Or.inl rfl
  | some node =>
    cases hi : node.inputs with
    | none =>
      simp only [setNodeInput, hl, hi] at h
      cases h
      exact Or.inr rfl
    | some ins =>
      simp only [setNodeInput, hl, hi] at h
      cases h

lemma not_unpatchable_of_setNodeInput_ok (wf wf' : Workflow) (nid key : String)
    (v : JsonValue) (hok : setNodeInput wf nid key v = .ok wf') :
    ¬ nodeUnpatchable wf nid := by
  cases hl : List.lookup nid wf with
  | none =>
    simp only [setNodeInput, hl] at hok
    cases hok
  | some node =>
    cases hi : node.inputs with
    | none =>
      simp only [setNodeInput, hl, hi] at hok
      cases hok
    | some ins =>
      unfold nodeUnpatchable
      rw [hl]
      simp [hi]

lemma lookup_map_setNode_ne (nid id' : String) (hne : id' ≠ nid)
    (f : WorkflowNode → WorkflowNode) :
    ∀ (wf : List (String × WorkflowNode)),
      List.lookup id' (wf.map (fun entry => if entry.1 = nid then (entry.1, f entry.2) else entry))
        = List.lookup id' wf := by
  intro wf
  induction wf with
  | nil => rfl
  | cons head rest ih =>
    obtain ⟨k, node⟩ := head
    simp only [List.map_cons]
    by_cases hk : k = nid
    · subst hk
      have hb : (id' == k) = false := beq_eq_false_iff_ne.mpr hne
      rw [show (if ((k, node) : String × WorkflowNode).1 = k then ((k, node).1, f (k, node).2)
            else (k, node)) = (k, f node) from if_pos rfl]
      rw [List.lookup_cons, List.lookup_cons, hb]
      exact ih
    · rw [show (if ((k, node) : String × WorkflowNode).1 = nid then ((k, node).1, f (k, node).2)
            else (k, node)) = (k, node) from if_neg hk]
      rw [List.lookup_cons, List.lookup_cons]
      cases hbeq : id' == k
      · exact ih
      · rfl

lemma setNodeInput_ok_lookup_ne (wf wf' : Workflow) (nid key : String) (v : JsonValue)
    (hok : setNodeInput wf nid key v = .ok wf') (id' : String) (hne : id' ≠ nid) :
    List.lookup id' wf' = List.lookup id' wf := by
  cases hl : List.lookup nid wf with
  | none =>
    simp only [setNodeInput, hl] at hok
    cases hok
  | some node =>
    cases hi : node.inputs with
    | none =>
      simp only [setNodeInput, hl, hi] at hok
      cases hok
    | some ins =>
      simp only [setNodeInput, hl, hi] at hok
      cases hok
      exact lookup_map_setNode_ne nid id' hne
        (fun n => { n with inputs := some (setKey ins key v) }) wf

lemma nodeUnpatchable_of_lookup_eq (wf wf' : Workflow) (id' : String)
    (hl : List.lookup id' wf' = List.lookup id' wf)
    (h : nodeUnpatchable wf id') : nodeUnpatchable wf' id' := by
  unfold nodeUnpatchable at h ⊢
  rw [hl]
  exact h

/-- C3 (amended).  Every run whose parameter patch references a node id absent
from the template, or a node whose `inputs` mapping is missing — for this
workflow the patch references exactly nodes `"2"` and `"6"` — fails with a
template error (a "node missing" / "node inputs missing" `ComfyUiError` naming
the offending node) rather than silently doing nothing, and the only network
call already made at the failure is the image upload — no job is ever queued,
so no remote job starts; the upload, however, has already happened. -/
theorem invalid_patch_fails_before_submission (template : Workflow)
    (uploadedName : String) (text : JsonValue)
    (opts : List (String × Option JsonValue))
    (h : nodeUnpatchable template "2" ∨ nodeUnpatchable template "6") :
    (∃ nid e, (nid = "2" ∨ nid = "6")
        ∧ (runOverlaytextWorkflow template uploadedName text opts).2 = .error e
        ∧ (e = "Workflow node " ++ nid ++ " missing"
            ∨ e = "Workflow node " ++ nid ++ " inputs missing"))
  ∧ (runOverlaytextWorkflow template uploadedName text opts).1 = [NetCall.upload] := by
  unfold runOverlaytextWorkflow
  cases h2 : setNodeInput template "2" "image" (.str uploadedName) with
  | error e =>
    refine ⟨⟨"2", e, Or.inl rfl, by simp, ?_⟩, by simp⟩
    exact setNodeInput_error_cases template "2" "image" (.str uploadedName) e h2
  | ok wf1 =>
    have h6 : nodeUnpatchable template "6" := by
      rcases h with h | h
      · exact absurd h (not_unpatchable_of_setNodeInput_ok template wf1 "2" "image" _ h2)
      · exact h
    have h6' : nodeUnpatchable wf1 "6" :=
      nodeUnpatchable_of_lookup_eq template wf1 "6"
        (setNodeInput_ok_lookup_ne template wf1 "2" "image" _ h2 "6" (by decide)) h6
    rcases setNodeInput_error_of_unpatchable wf1 "6" "text" text h6' with h6e | h6e
    · exact ⟨⟨"6", "Workflow node " ++ "6" ++ " missing", Or.inr rfl,
        by simp [h6e], Or.inl rfl⟩, by simp [h6e]⟩
    · exact ⟨⟨"6", "Workflow node " ++ "6" ++ " inputs missing", Or.inr rfl,
        by simp [h6e], Or.inr rfl⟩, by simp [h6e]⟩

/-- Witness for C3 (amended): a template missing patched node `"2"` (it has
only node `"6"`) fails with the node-2 template error, and a template missing
patched node `"6"` (it has only node `"2"`) passes the node-2 patch and fails
with the node-6 template error; in both runs the only network call made is the
upload. -/
theorem invalid_patch_fails_before_submission_witness :
    ((runOverlaytextWorkflow templateOnly6 "up.png" (.str "hello") []).2
        = .error "Workflow node 2 missing"
      ∧ (runOverlaytextWorkflow templateOnly6 "up.png" (.str "hello") []).1
        = [NetCall.upload])
  ∧ ((runOverlaytextWorkflow templateOnly2 "up.png" (.str "hello") []).2
        = .error "Workflow node 6 missing"
      ∧ (runOverlaytextWorkflow templateOnly2 "up.png" (.str "hello") []).1
        = [NetCall.upload]) := by
  have h6 := invalid_patch_fails_before_submission templateOnly6 "up.png" (.str "hello") []
    (Or.inl trivial)
  have h2 := invalid_patch_fails_before_submission templateOnly2 "up.png" (.str "hello") []
    (Or.inr trivial)
  exact ⟨⟨rfl, h6.2⟩, ⟨rfl, h2.2⟩⟩

/-- Counterexample to C3 as stated: for the template missing node `"2"`, the
run does fail with a template error, but a network call (the image upload, with
its remote side effect) has already been made before the failure — the trace of
network calls made before the run fails is `[upload]`, not `[]`. -/
theorem invalid_patch_counterexample :
    (runOverlaytextWorkflow [] "up.png" (.str "hello") []).2
        = .error "Workflow node 2 missing"
  ∧ (runOverlaytextWorkflow [] "up.png" (.str "hello") []).1 = [NetCall.upload]
  ∧ (runOverlaytextWorkflow [] "up.png" (.str "hello") []).1 ≠ [] := by
  exact ⟨rfl, rfl, by decide⟩

lemma dictGet_eq_none_of_forall_ne (tid : String) :
    ∀ (r : TaskRegistry), (∀ e ∈ r, e.1 ≠ tid) → dictGet r tid = none := by
  intro r
  induction r with
  | nil => intro _; rfl
  | cons head rest ih =>
    intro h
    obtain ⟨k, v⟩ := head
    have hne : k ≠ tid := h (k, v) (List.mem_cons_self _ _)
    simp only [dictGet, if_neg hne]
    exact ih (fun e he => h e (List.mem_cons_of_mem _ he))

lemma mem_of_dictGet_eq_some (tid : String) :
    ∀ (r : TaskRegistry) (t : UpscaleTask), dictGet r tid = some t → (tid, t) ∈ r := by
  intro r
  induction r with
  | nil => intro t h; cases h
  | cons head rest ih =>
    intro t h
    obtain ⟨k, v⟩ := head
    by_cases hk : k = tid
    · subst hk
      simp only [dictGet, if_pos rfl] at h
      cases h
      exact List.mem_cons_self _ _
    · simp only [dictGet, if_neg hk] at h
      exact List.mem_cons_of_mem _ (ih t h)

lemma dictGet_dictSet (tid : String) (v : UpscaleTask) :
    ∀ (r : TaskRegistry), dictGet (dictSet r tid v) tid = some v := by
  intro r
  induction r with
  | nil => simp [dictGet, dictSet]
  | cons head rest ih =>
    obtain ⟨k, w⟩ := head
    by_cases hk : k = tid
    · simp [dictSet, if_pos hk, dictGet]
    · simp only [dictSet, if_neg hk, dictGet, if_neg hk]
      exact ih

/-- C7.  The registry's get is a total function (an unknown id is the defined
outcome `none`, never an exception); a successful get returns exactly the
stored record's value; and a later registry update is seen only by a fresh
get — the record returned earlier is an immutable snapshot value. -/
theorem registry_get_snapshot (r : TaskRegistry) (tid : String) :
    ((∀ e ∈ r, e.1 ≠ tid) → getVideoUpscaleTask r tid = none)
  ∧ (∀ t, getVideoUpscaleTask r tid = some t → (tid, t) ∈ r)
  ∧ (∀ patch t, getVideoUpscaleTask r tid = some t →
      getVideoUpscaleTask (setVideoUpscaleTask r tid patch) tid = some (patch t)) := by
  refine ⟨dictGet_eq_none_of_forall_ne tid r, mem_of_dictGet_eq_some tid r, ?_⟩
  intro patch t hget
  unfold getVideoUpscaleTask at hget ⊢
  unfold setVideoUpscaleTask
  rw [hget]
  exact dictGet_dictSet tid (patch t) r

/-- C9.  The status endpoint returns the record only when the stored
`user_id` equals the requesting user's id; a task owned by a different user
produces exactly the same 404 "Task not found" outcome as a nonexistent task
id, so a poll by one user reveals nothing about another user's tasks. -/
theorem status_poll_isolated_across_users (r : TaskRegistry) (tid uid : String) :
    (getVideoUpscaleTask r tid = none →
        videoUpscaleStatus r tid uid
          = .error { status_code := 404, detail := "Task not found" })
  ∧ (∀ task, getVideoUpscaleTask r tid = some task → pyStr task.user_id ≠ uid →
        videoUpscaleStatus r tid uid
          = .error { status_code := 404, detail := "Task not found" })
  ∧ (∀ task, getVideoUpscaleTask r tid = some task → pyStr task.user_id = uid →
        videoUpscaleStatus r tid uid = .ok (statusRespOf tid task)) := by
  refine ⟨?_, ?_, ?_⟩
  · intro h
    unfold videoUpscaleStatus
    rw [h]
  · intro task hget howner
    unfold videoUpscaleStatus
    rw [hget]
    simp only [if_pos howner]
  · intro task hget howner
    unfold videoUpscaleStatus
    rw [hget]
    simp [howner]

/-- Witness for C7: an unknown id gets `none`; after patching `"t1"` to an
error state, a fresh get sees the patched record. -/
theorem registry_get_snapshot_witness :
    getVideoUpscaleTask registryEx "t2" = none
  ∧ getVideoUpscaleTask
      (setVideoUpscaleTask registryEx "t1"
        (fun t => { t with status := "error", error := some "boom" })) "t1"
      = some { taskAlice with status := "error", error := some "boom" } := by
  constructor
  · exact (registry_get_snapshot registryEx "t2").1 (by decide)
  · exact (registry_get_snapshot registryEx "t1").2.2
      (fun t => { t with status := "error", error := some "boom" }) taskAlice rfl

/-- Witness for C9: `"mallory"` polling `"alice"`'s task gets the same 404 as
polling a nonexistent id, while `"alice"` gets the record. -/
theorem status_poll_isolated_witness :
    videoUpscaleStatus registryEx "t1" "mallory"
        = .error { status_code := 404, detail := "Task not found" }
  ∧ videoUpscaleStatus registryEx "missing" "mallory"
        = .error { status_code := 404, detail := "Task not found" }
  ∧ videoUpscaleStatus registryEx "t1" "alice" = .ok (statusRespOf "t1" taskAlice) := by
  refine ⟨?_, ?_, ?_⟩
  · exact (status_poll_isolated_across_users registryEx "t1" "mallory").2.1
      taskAlice rfl (by decide)
  · exact (status_poll_isolated_across_users registryEx "missing" "mallory").1 rfl
  · exact (status_poll_isolated_across_users registryEx "t1" "alice").2.2
      taskAlice rfl (by decide)

lemma clampProgress_nonneg (total done : Nat) : 0 ≤ clampProgress total done :=
  le_max_left 0 _

lemma clampProgress_le_one (total done : Nat) : clampProgress total done ≤ 1 :=
  max_le (by norm_num) (min_le_left 1 _)

lemma clampProgress_mono (total : Nat) {a b : Nat} (hab : a ≤ b) :
    clampProgress total a ≤ clampProgress total b := by
  by_cases h : 0 < total
  · simp only [clampProgress, if_pos h]
    refine max_le_max le_rfl (min_le_min le_rfl ?_)
    rw [div_le_div_iff_of_pos_right (by exact_mod_cast h : (0:ℚ) < (total:ℚ))]
    exact_mod_cast hab
  · simp only [clampProgress, if_neg h]
    exact le_rfl

lemma progressPhase_mem (total : Nat) :
    ∀ (ks : List Nat) (t s : UpscaleTask), s ∈ progressPhase total t ks →
      s.status = "running" ∧ ∃ k ∈ ks, s.progress = clampProgress total k := by
  intro ks
  induction ks with
  | nil => intro t s h; simp [progressPhase] at h
  | cons k rest ih =>
    intro t s h
    rcases List.mem_cons.mp h with h | h
    · subst h
      exact ⟨rfl, k, List.mem_cons_self _ _, rfl⟩
    · obtain ⟨hs, k', hk', hp⟩ := ih _ s h
      exact ⟨hs, k', List.mem_cons_of_mem _ hk', hp⟩

lemma progressPhase_chain (total : Nat) :
    ∀ (ks : List Nat) (t : UpscaleTask),
      List.Chain' (· ≤ ·) ks →
      (∀ k ∈ ks.head?, t.progress ≤ clampProgress total k) →
      List.Chain' (fun a b => a.progress ≤ b.progress) (t :: progressPhase total t ks) := by
  intro ks
  induction ks with
  | nil =>
    intro t _ _
    simp [progressPhase]
  | cons k rest ih =>
    intro t hks hhead
    have hstep : t.progress ≤ clampProgress total k := hhead k rfl
    simp only [progressPhase]
    rw [List.chain'_cons]
    refine ⟨hstep, ?_⟩
    apply ih
    · exact (List.chain'_cons'.mp hks).2
    · intro k' hk'
      have hkk : k ≤ k' := (List.chain'_cons'.mp hks).1 k' hk'
      calc (applyProgress k total t).progress = clampProgress total k := rfl
        _ ≤ clampProgress total k' := clampProgress_mono total hkk

lemma runStates_facts (uid : String) (total j : Nat) :
    ∀ s ∈ runStates uid total j,
      (0 ≤ s.progress ∧ s.progress ≤ 1) ∧ (s.status = "queued" ∨ s.status = "running") := by
  intro s hs
  unfold runStates at hs
  rcases List.mem_cons.mp hs with h | hs'
  · subst h
    exact ⟨⟨le_of_eq rfl, (by norm_num : (0:ℚ) ≤ 1)⟩, Or.inl rfl⟩
  rcases List.mem_cons.mp hs' with h | hs''
  · subst h
    exact ⟨⟨le_of_eq rfl, (by norm_num : (0:ℚ) ≤ 1)⟩, Or.inr rfl⟩
  · obtain ⟨hst, k, _, hp⟩ := progressPhase_mem total _ _ s hs''
    rw [hp]
    exact ⟨⟨clampProgress_nonneg _ _, clampProgress_le_one _ _⟩, Or.inr hst⟩

lemma runStates_chain (uid : String) (total j : Nat) :
    List.Chain' (fun a b => a.progress ≤ b.progress) (runStates uid total j) := by
  unfold runStates
  rw [List.chain'_cons]
  refine ⟨le_of_eq rfl, ?_⟩
  apply progressPhase_chain
  · rw [List.chain'_range_succ]
    intro m _
    exact Nat.le_succ m
  · intro k hk
    rw [List.range_succ_eq_map] at hk
    have hk0 : k = 0 := by simp [Option.mem_def] at hk; omega
    subst hk0
    exact clampProgress_nonneg total 0

lemma runStates_getLastD_mem (uid : String) (total j : Nat) :
    (runStates uid total j).getLastD emptyTask ∈ runStates uid total j := by
  have h : runStates uid total j ≠ [] := by
    unfold runStates
    exact List.cons_ne_nil _ _
  rw [List.getLastD_eq_getLast?, List.getLast?_eq_getLast _ h]
  exact List.getLast_mem h

/-- C1 (amended).  Over the whole registry-state trace of a run — successful
or failed, for any chunk count and failure point — `progress` is monotonically
non-decreasing and always lies in `[0, 1]`, and `status = "success"` implies
`progress = 1`.  (The converse of the last implication is false on the code:
see the counterexample.) -/
theorem progress_monotone_bounded (uid out msg : String) (n j : Nat) :
    (List.Chain' (fun a b => a.progress ≤ b.progress) (successTrace uid out n)
      ∧ ∀ s ∈ successTrace uid out n,
          (0 ≤ s.progress ∧ s.progress ≤ 1) ∧ (s.status = "success" → s.progress = 1))
  ∧ (List.Chain' (fun a b => a.progress ≤ b.progress) (errorTrace uid msg n j)
      ∧ ∀ s ∈ errorTrace uid msg n j,
          (0 ≤ s.progress ∧ s.progress ≤ 1) ∧ (s.status = "success" → s.progress = 1)) := by
  refine ⟨⟨?_, ?_⟩, ⟨?_, ?_⟩⟩
  · unfold successTrace
    rw [List.chain'_append]
    refine ⟨runStates_chain uid n n, by simp, ?_⟩
    intro a ha b hb
    have hb' : successUpdate out ((runStates uid n n).getLastD emptyTask) = b := by
      simpa using hb
    have hmem : a ∈ runStates uid n n := List.mem_of_mem_getLast? ha
    have := (runStates_facts uid n n a hmem).1.2
    rw [← hb']
    exact this
  · intro s hs
    unfold successTrace at hs
    rcases List.mem_append.mp hs with h | h
    · have hf := runStates_facts uid n n s h
      refine ⟨hf.1, ?_⟩
      intro hsucc
      rcases hf.2 with h' | h' <;> rw [h'] at hsucc <;> exact absurd hsucc (by decide)
    · have hx : s = successUpdate out ((runStates uid n n).getLastD emptyTask) := by
        simpa using h
      rw [hx]
      exact ⟨⟨(by norm_num : (0:ℚ) ≤ 1), le_of_eq rfl⟩, fun _ => rfl⟩
  · unfold errorTrace
    rw [List.chain'_append]
    refine ⟨runStates_chain uid n j, by simp, ?_⟩
    intro a ha b hb
    have hb' : errorUpdate msg ((runStates uid n j).getLastD emptyTask) = b := by
      simpa using hb
    have ha' : (runStates uid n j).getLast? = some a := ha
    have hD : (runStates uid n j).getLastD emptyTask = a := by
      rw [List.getLastD_eq_getLast?, ha']
      rfl
    rw [← hb', hD]
    exact le_rfl
  · intro s hs
    unfold errorTrace at hs
    rcases List.mem_append.mp hs with h | h
    · have hf := runStates_facts uid n j s h
      refine ⟨hf.1, ?_⟩
      intro hsucc
      rcases hf.2 with h' | h' <;> rw [h'] at hsucc <;> exact absurd hsucc (by decide)
    · have hx : s = errorUpdate msg ((runStates uid n j).getLastD emptyTask) := by
        simpa using h
      have hf := runStates_facts uid n j _ (runStates_getLastD_mem uid n j)
      rw [hx]
      refine ⟨hf.1, ?_⟩
      intro hsucc
      have hcon : "error" = "success" := hsucc
      exact absurd hcon (by decide)

/-- Counterexample to C1 as stated: in a successful 1-chunk run, the registry
state right after the final chunk's progress callback already has
`progress = 1.0` while `status` is still `"running"`, not `"success"` — so
`progress == 1.0` does not imply `status == "success"`. -/
theorem progress_one_while_running :
    overshootState ∈ successTrace "u" "out" 1
  ∧ overshootState.progress = 1
  ∧ overshootState.status = "running" := by
  refine ⟨List.mem_append_left _ ?_, ?_, rfl⟩
  · exact List.mem_cons_of_mem _ (List.mem_cons_of_mem _
      (List.mem_cons_of_mem _ (List.mem_cons_self _ _)))
  · norm_num [overshootState, applyProgress]

/-- C5 (amended).  Whatever stage raises and whenever it raises, the worker's
top-level handler performs the run's final registry write: `status="error"`
with the raised message stored verbatim (truncation, where it exists in this
code, happens at the error's construction site, not in the worker); after it
the trace ends — no retry — and no state of the whole run ever has
`status="success"`. -/
theorem worker_error_terminal (uid msg : String) (n j : Nat) :
    (errorTrace uid msg n j).getLast?
        = some (errorUpdate msg ((runStates uid n j).getLastD emptyTask))
  ∧ (errorUpdate msg ((runStates uid n j).getLastD emptyTask)).status = "error"
  ∧ (errorUpdate msg ((runStates uid n j).getLastD emptyTask)).error = some msg
  ∧ ∀ s ∈ errorTrace uid msg n j, s.status ≠ "success" := by
  refine ⟨List.getLast?_concat _, rfl, rfl, ?_⟩
  intro s hs
  unfold errorTrace at hs
  rcases List.mem_append.mp hs with h | h
  · rcases (runStates_facts uid n j s h).2 with h' | h' <;> rw [h'] <;> decide
  · have hx : s = errorUpdate msg ((runStates uid n j).getLastD emptyTask) := by
      simpa using h
    rw [hx]
    intro hsucc
    have hcon : "error" = "success" := hsucc
    exact absurd hcon (by decide)

set_option maxRecDepth 4000 in
/-- Counterexample to C5 as stated ("truncated error message"): a 501-character
exception message — longer than the 500-character cap used by every truncation
site in this code — is stored in the registry verbatim by the worker's error
write; the worker truncates nothing. -/
theorem worker_error_message_not_truncated :
    (errorTrace "u" longErrMsg 4 2).getLast?
        = some (errorUpdate longErrMsg ((runStates "u" 4 2).getLastD emptyTask))
  ∧ (errorUpdate longErrMsg ((runStates "u" 4 2).getLastD emptyTask)).error
        = some longErrMsg
  ∧ 500 < longErrMsg.length := by
  refine ⟨List.getLast?_concat _, rfl, by decide⟩

end BananaFlow

